import Mathlib

/-!
Shallow embedding of the BYTE-90 motion-classification and
animation-sequencing engine (`src/motion_module.cpp`,
`src/animation_module.cpp`, `src/adxl_module.cpp`, `src/gif_module.cpp`,
`src/common.cpp`).

Modelling conventions:
* `millis()` timestamps are natural numbers; the clock is assumed
  monotone, so the C unsigned subtractions `millis() - t` coincide with
  truncated `Nat` subtraction (every stored timestamp comes from an
  earlier `millis()` reading or the zero initializer).
* Accelerometer readings are an input oracle: a stream of events, one per
  `getSensorData()` call.  The float pipeline in
  `calculateCombinedMagnitude` (sqrt, exponential smoothing, rounding to
  int) is folded into that oracle: the `mag` field of an event is the
  value that `calculateCombinedMagnitude` returned for that read.
  Magnitudes and axis values are rationals, so the threshold comparisons
  of the source are exact.
* `millis()` is read several times inside one classification tick; the
  drift within a tick is ignored and one `now` is used for the whole
  tick.
* `setMotionState` also drains the sensor interrupt register
  (`clearInterrupts`); that hardware side effect has no observable
  consequence in this model and is dropped.
-/

namespace ByteSprout

/-- One accelerometer read: raw axis values as delivered by
`getSensorData()`, together with the (smoothed, gravity-compensated)
magnitude that `calculateCombinedMagnitude` produced for this read. -/
structure SensorEvent where
  x : ℚ
  y : ℚ
  z : ℚ
  mag : ℚ
deriving DecidableEq

/-- The flag array `g_motionStates`, one boolean per `MotionStateType`. -/
structure MotionFlags where
  shaking : Bool := false
  tapped : Bool := false
  doubleTapped : Bool := false
  sleep : Bool := false
  deepSleep : Bool := false
  upsideDown : Bool := false
  tiltedLeft : Bool := false
  tiltedRight : Bool := false
  halfTiltedLeft : Bool := false
  halfTiltedRight : Bool := false
  suddenAcceleration : Bool := false
deriving DecidableEq

/-- All classifier-persistent mutable state of `motion_module.cpp`:
the flag array, the module-level timers, the function-local statics of
the detectors, the sensor-read cursor into the event stream, and the
display state touched by `autoDimDisplay` and `handleDeepSleep`. -/
structure MotionState where
  flags : MotionFlags := {}
  /-- `INACTIVITY_TIME` (0 means unset) -/
  inactivityTime : ℕ := 0
  /-- `DISPLAY_TIME` -/
  displayTime : ℕ := 0
  /-- `IDLE_TIME` -/
  idleTime : ℕ := 0
  /-- static `tapLockoutTime` in `detectShakes` -/
  tapLockoutTime : ℕ := 0
  /-- static `accelLockoutTime` in `detectSuddenAcceleration` -/
  accelLockoutTime : ℕ := 0
  /-- static `prevMagnitude` in `detectSuddenAcceleration` -/
  prevMagnitude : ℚ := 0
  /-- static `lastInactivityTime` in `monitorSleep` (0 means unset) -/
  lastInactivityTime : ℕ := 0
  /-- how many `getSensorData()` calls have happened so far -/
  cursor : ℕ := 0
  /-- last level passed to `setDisplayBrightness` -/
  brightness : ℕ := 15
  /-- `enterDeepSleep` was reached (hardware deep sleep) -/
  hwDeepSleep : Bool := false
deriving DecidableEq

/-- The environment of one classification tick: sensor enable bit, the
FIFO sample count read once at the top of `ADXLDataPolling`, the
interrupt pin level, the two registers read by `detectTapping`, the
stream of sensor reads, and the tick's `millis()` clock. -/
structure TickEnv where
  sensorEnabled : Bool := true
  samplesAvailable : ℕ := 0
  pinD1High : Bool := false
  intSource : ℕ := 0
  tapStatus : ℕ := 0
  events : ℕ → SensorEvent := fun _ => ⟨0, 0, 0, 0⟩
  now : ℕ := 0

-- Threshold constants of `motion_module.cpp`.

def SHAKE_THRESHOLD : ℚ := 8
def INACTIVITY_THRESHOLD : ℚ := 3 / 2
def TILT_THRESHOLD : ℚ := 9
def HALF_TILT_THRESHOLD : ℚ := 21 / 5
def FLIP_THRESHOLD : ℚ := -8

-- Timing constants.

/-- `timeToMillis(hours, minutes)` from `common.cpp`: converts hours and
minutes to milliseconds. -/
def timeToMillis (hours minutes : ℕ) : ℕ :=
  (hours * 60 + minutes) * 60 * 1000

def ENTER_DEEP_SLEEP_TIMER : ℕ := 20000
def INACTIVITY_TIMEOUT : ℕ := timeToMillis 1 30
def DISPLAY_TIMEOUT : ℕ := timeToMillis 0 30
def IDLE_TIMEOUT : ℕ := timeToMillis 1 0
def TAP_LOCKOUT_PERIOD : ℕ := 500
def ACCEL_LOCKOUT_PERIOD : ℕ := 600

-- Register bit masks of `adxl_module.h`.

def ADXL345_INT_SOURCE_DOUBLETAP : ℕ := 0x20
def ADXL345_INT_SOURCE_SINGLETAP : ℕ := 0x40
def ADXL345_TAP_SOURCE_X : ℕ := 0x04
def ADXL345_TAP_SOURCE_Y : ℕ := 0x02
def ADXL345_TAP_SOURCE_Z : ℕ := 0x01

-- Brightness levels of `display_module.h`.

def DISPLAY_BRIGHTNESS_DIM : ℕ := 0x00
def DISPLAY_BRIGHTNESS_LOW : ℕ := 0x02
def DISPLAY_BRIGHTNESS_FULL : ℕ := 0x0F

/-- Sum of `f` over `n` consecutive sensor reads starting at read index
`start` (the `for` accumulation loops of the detectors). -/
def sumField (f : SensorEvent → ℚ) (events : ℕ → SensorEvent) (start : ℕ) : ℕ → ℚ
  | 0 => 0
  | n + 1 => f (events start) + sumField f events (start + 1) n

/-- Average combined magnitude of the batch of `n` reads starting at the
given cursor (`totalMagnitude / samples`). -/
def batchAvgMag (env : TickEnv) (cursor n : ℕ) : ℚ :=
  sumField SensorEvent.mag env.events cursor n / (n : ℚ)

/-- `detectShakes` (`motion_module.cpp` lines 382-408). -/
def detectShakes (env : TickEnv) (s : MotionState) : MotionState :=
  if s.flags.tapped || s.flags.doubleTapped then
    { s with tapLockoutTime := env.now }
  else if env.now - s.tapLockoutTime < TAP_LOCKOUT_PERIOD then
    s
  else
    let n := env.samplesAvailable
    let avg := batchAvgMag env s.cursor n
    let s1 := { s with cursor := s.cursor + n }
    if SHAKE_THRESHOLD ≤ avg then
      { s1 with flags := { s1.flags with shaking := true } }
    else s1

/-- `detectTapping` (`motion_module.cpp` lines 258-306).  The two
register reads return 0 when the sensor is disabled (`readRegister`). -/
def detectTapping (env : TickEnv) (s : MotionState) : MotionState :=
  if env.pinD1High = false then s
  else
    let intSource := if env.sensorEnabled then env.intSource else 0
    let tapStatus := if env.sensorEnabled then env.tapStatus else 0
    if tapStatus &&& ADXL345_TAP_SOURCE_Z ≠ 0 ∧
        (intSource &&& ADXL345_INT_SOURCE_DOUBLETAP ≠ 0 ∨
         intSource &&& ADXL345_INT_SOURCE_SINGLETAP ≠ 0) then
      s
    else if tapStatus &&& ADXL345_TAP_SOURCE_Y ≠ 0 ∧
        intSource &&& ADXL345_INT_SOURCE_DOUBLETAP ≠ 0 then
      { s with flags := { s.flags with doubleTapped := true } }
    else if tapStatus &&& ADXL345_TAP_SOURCE_X ≠ 0 ∧
        intSource &&& ADXL345_INT_SOURCE_DOUBLETAP ≠ 0 then
      { s with flags := { s.flags with doubleTapped := true } }
    else if tapStatus &&& ADXL345_TAP_SOURCE_X ≠ 0 ∧
        intSource &&& ADXL345_INT_SOURCE_SINGLETAP ≠ 0 then
      { s with flags := { s.flags with tapped := true } }
    else if intSource &&& ADXL345_INT_SOURCE_DOUBLETAP ≠ 0 then
      { s with flags := { s.flags with doubleTapped := true } }
    else if intSource &&& ADXL345_INT_SOURCE_SINGLETAP ≠ 0 then
      { s with flags := { s.flags with tapped := true } }
    else s

/-- `detectInactivity` (`motion_module.cpp` lines 471-496).  Returns the
new state and the function's boolean result. -/
def detectInactivity (env : TickEnv) (s : MotionState) : MotionState × Bool :=
  if env.samplesAvailable = 0 then (s, false)
  else
    let n := env.samplesAvailable
    let avg := batchAvgMag env s.cursor n
    let s1 := { s with cursor := s.cursor + n }
    if avg < INACTIVITY_THRESHOLD then
      if s1.inactivityTime = 0 then
        ({ s1 with inactivityTime := env.now }, false)
      else if INACTIVITY_TIMEOUT ≤ env.now - s1.inactivityTime then
        ({ s1 with flags := { s1.flags with deepSleep := true } }, true)
      else (s1, false)
    else
      ({ s1 with inactivityTime := 0,
                 flags := { s1.flags with deepSleep := false } }, false)

/-- `detectSuddenAcceleration` (`motion_module.cpp` lines 317-375).
Reads a single sensor event regardless of `samples`. -/
def detectSuddenAcceleration (env : TickEnv) (s : MotionState) :
    MotionState × Bool :=
  if env.samplesAvailable < 2 then (s, false)
  else if s.flags.doubleTapped || s.flags.tapped || s.flags.shaking then
    ({ s with accelLockoutTime := env.now }, false)
  else if env.now - s.accelLockoutTime < ACCEL_LOCKOUT_PERIOD then (s, false)
  else
    let currentMagnitude := (env.events s.cursor).mag
    let magnitudeChange := |currentMagnitude - s.prevMagnitude|
    let s1 := { s with cursor := s.cursor + 1, prevMagnitude := currentMagnitude }
    if 6 ≤ currentMagnitude ∧ 4 ≤ magnitudeChange then
      ({ s1 with flags := { s1.flags with suddenAcceleration := true } }, true)
    else
      ({ s1 with flags := { s1.flags with suddenAcceleration := false } }, false)

/-- `detectOrientation` (`motion_module.cpp` lines 415-459). -/
def detectOrientation (env : TickEnv) (s : MotionState) : MotionState :=
  if env.samplesAvailable = 0 then s
  else
    let n := env.samplesAvailable
    let avgY := sumField SensorEvent.y env.events s.cursor n / (n : ℚ)
    let avgZ := sumField SensorEvent.z env.events s.cursor n / (n : ℚ)
    let s1 := { s with cursor := s.cursor + n }
    let cleared := { s1.flags with
      upsideDown := false, tiltedLeft := false, tiltedRight := false,
      halfTiltedLeft := false, halfTiltedRight := false }
    if avgZ ≤ FLIP_THRESHOLD then
      { s1 with flags := { cleared with upsideDown := true } }
    else if TILT_THRESHOLD ≤ avgY then
      { s1 with flags := { cleared with tiltedRight := true } }
    else if avgY ≤ -TILT_THRESHOLD then
      { s1 with flags := { cleared with tiltedLeft := true } }
    else if HALF_TILT_THRESHOLD ≤ avgY ∧ avgY < TILT_THRESHOLD then
      { s1 with flags := { cleared with halfTiltedRight := true } }
    else if avgY ≤ -HALF_TILT_THRESHOLD ∧ -TILT_THRESHOLD < avgY then
      { s1 with flags := { cleared with halfTiltedLeft := true } }
    else { s1 with flags := cleared }

/-- `autoDimDisplay` (`motion_module.cpp` lines 503-535).  The `&&`
short-circuits of the source are preserved: `debounce` only updates
`DISPLAY_TIME` when the activity branch is reached, and `setTimeout`
only updates `IDLE_TIME` when the sleep flag is clear. -/
def autoDimDisplay (env : TickEnv) (s : MotionState) : MotionState :=
  if env.samplesAvailable = 0 then s
  else
    let n := env.samplesAvailable
    let avg := batchAvgMag env s.cursor n
    let s1 := { s with cursor := s.cursor + n }
    if INACTIVITY_THRESHOLD < avg ∧ 200 ≤ env.now - s1.displayTime then
      { s1 with brightness := DISPLAY_BRIGHTNESS_FULL,
                displayTime := env.now,
                flags := { s1.flags with sleep := false } }
    else if DISPLAY_TIMEOUT ≤ env.now - s1.displayTime then
      if s1.flags.sleep = false ∧ IDLE_TIMEOUT ≤ env.now - s1.idleTime then
        { s1 with idleTime := env.now,
                  brightness := DISPLAY_BRIGHTNESS_LOW,
                  flags := { s1.flags with sleep := true } }
      else s1
    else s1

/-- `handleDeepSleep` (`motion_module.cpp` lines 243-249): dim the
display, show the mode image (not modelled), enter hardware deep
sleep. -/
def handleDeepSleep (s : MotionState) : MotionState :=
  { s with brightness := DISPLAY_BRIGHTNESS_DIM, hwDeepSleep := true }

/-- `monitorSleep` (`motion_module.cpp` lines 542-559). -/
def monitorSleep (env : TickEnv) (s : MotionState) : MotionState :=
  let r := detectInactivity env s
  let s1 := r.1
  if r.2 then
    let s2 := if s1.lastInactivityTime = 0 then
                { s1 with lastInactivityTime := env.now }
              else s1
    if ENTER_DEEP_SLEEP_TIMER ≤ env.now - s2.lastInactivityTime then
      handleDeepSleep { s2 with lastInactivityTime := env.now }
    else s2
  else if s1.lastInactivityTime ≠ 0 then { s1 with lastInactivityTime := 0 }
  else s1

/-- `ADXLDataPolling` (`motion_module.cpp` lines 580-608): one
classification tick.  `menu_update()` touches no classifier state and is
not modelled. -/
def ADXLDataPolling (env : TickEnv) (s : MotionState) : MotionState :=
  if env.sensorEnabled = false then s
  else if env.samplesAvailable = 0 then s
  else
    let s1 := detectShakes env s
    let s2 := if s1.flags.shaking = false then
                (detectInactivity env (detectTapping env s1)).1
              else s1
    let s3 := (detectSuddenAcceleration env s2).1
    let s4 := detectOrientation env s3
    let s5 := monitorSleep env s4
    autoDimDisplay env s5

/-!
## Animation module (`animation_module.cpp`)

Emote path constants from `emotes_module.h`.  In this snapshot of the
repository every animated emote expands to the same placeholder path, so
the emote *collections* (which are distinct arrays) and the index pools
carry the information, not the strings.
-/

def ANGRY_EMOTE : String := "/gifs/your_gif_here.gif"
def CRASH01_EMOTE : String := "/gifs/your_gif_here.gif"
def CRASH02_EMOTE : String := "/gifs/your_gif_here.gif"
def CRASH03_EMOTE : String := "/gifs/your_gif_here.gif"
def CRY_EMOTE : String := "/gifs/your_gif_here.gif"
def DOUBTFUL_EMOTE : String := "/gifs/your_gif_here.gif"
def IDLE_EMOTE : String := "/gifs/your_gif_here.gif"
def LOOK_DOWN_EMOTE : String := "/gifs/your_gif_here.gif"
def LOOK_LEFT_RIGHT_EMOTE : String := "/gifs/your_gif_here.gif"
def LOOK_UP_EMOTE : String := "/gifs/your_gif_here.gif"
def REST_EMOTE : String := "/gifs/your_gif_here.gif"
def SCAN_EMOTE : String := "/gifs/your_gif_here.gif"
def SHOCK_EMOTE : String := "/gifs/your_gif_here.gif"
def TALK_EMOTE : String := "/gifs/your_gif_here.gif"
def WINK_EMOTE : String := "/gifs/your_gif_here.gif"
def ZONED_EMOTE : String := "/gifs/your_gif_here.gif"
def PIXEL_EMOTE : String := "/gifs/your_gif_here.gif"
def GLEE_EMOTE : String := "/gifs/your_gif_here.gif"
def BLINK_EMOTE : String := "/gifs/your_gif_here.gif"
def EXCITED_EMOTE : String := "/gifs/your_gif_here.gif"
def UWU_EMOTE : String := "/gifs/your_gif_here.gif"
def HEARTS_EMOTE : String := "/gifs/your_gif_here.gif"
def WHISTLE_EMOTE : String := "/gifs/your_gif_here.gif"
def MISCHIEF_EMOTE : String := "/gifs/your_gif_here.gif"
def HUMSUP_EMOTE : String := "/gifs/your_gif_here.gif"
def WINK_02_EMOTE : String := "/gifs/your_gif_here.gif"

/-- `randomEmotes` for `DEVICE_MODE == BYTE_MODE` (the mode selected by
`common.h`), 15 entries. -/
def randomEmotes : List String :=
  [WINK_02_EMOTE, ZONED_EMOTE, DOUBTFUL_EMOTE, TALK_EMOTE, SCAN_EMOTE,
   ANGRY_EMOTE, CRY_EMOTE, PIXEL_EMOTE, EXCITED_EMOTE, HEARTS_EMOTE,
   UWU_EMOTE, WHISTLE_EMOTE, GLEE_EMOTE, MISCHIEF_EMOTE, HUMSUP_EMOTE]

/-- `restingEmotes` for `BYTE_MODE`, 5 entries. -/
def restingEmotes : List String :=
  [REST_EMOTE, IDLE_EMOTE, LOOK_DOWN_EMOTE, LOOK_UP_EMOTE,
   LOOK_LEFT_RIGHT_EMOTE]

/-- The function-local static state of `randomizeEmotes`:
`unplayedEmotes` (an array of `uint8_t` indices, length `arraySize`),
`arraySize` and `remainingCount`. -/
structure EmotePool where
  unplayed : List ℕ := []
  arraySize : ℕ := 0
  remainingCount : ℕ := 0
deriving DecidableEq

/-- One call of `randomizeEmotes` (`animation_module.cpp` lines
212-247): reallocate when the pool size changed, refill when exhausted,
pick position `random(remainingCount)` (modelled as `r %
remainingCount` for an arbitrary oracle value `r`), swap the last
unplayed index into the chosen slot, shrink the pool, and return the
selected index (`none` on the invalid-parameter early return).  Indices
are stored in `uint8_t` cells, hence the `% 256` at refill. -/
def randomizeEmotes (count : ℕ) (r : ℕ) (s : EmotePool) :
    EmotePool × Option ℕ :=
  if count = 0 then (s, none)
  else
    let s1 := if s.arraySize ≠ count then
        { unplayed := List.replicate count 0, arraySize := count,
          remainingCount := 0 }
      else s
    let s2 := if s1.remainingCount = 0 then
        { s1 with unplayed := (List.range count).map (· % 256),
                  remainingCount := count }
      else s1
    let pos := r % s2.remainingCount
    let sel := s2.unplayed.getD pos 0
    let lastVal := s2.unplayed.getD (s2.remainingCount - 1) 0
    ({ s2 with unplayed := s2.unplayed.set pos lastVal,
               remainingCount := s2.remainingCount - 1 }, some sel)

/-- A sequence of consecutive `randomizeEmotes` calls with the same
`count`, driven by a list of random-oracle values; collects the selected
indices in call order. -/
def randomizeEmotesRun (count : ℕ) (s : EmotePool) :
    List ℕ → EmotePool × List ℕ
  | [] => (s, [])
  | r :: rs =>
    let step := randomizeEmotes count r s
    let rest := randomizeEmotesRun count step.1 rs
    (rest.1, step.2.toList ++ rest.2)

/-- `SequenceState` from `animation_module.h`. -/
inductive SequenceState
  | REST_START
  | ANIMATION_CYCLE
  | REST_END
deriving DecidableEq

/-- `AnimationSequence` from `animation_module.h` (the two delay
constants are `STATE_DELAY` and `IDLE_DELAY` below). -/
structure AnimationSequence where
  currentState : SequenceState := .REST_START
  stateStartTime : ℕ := 0
  isIdleMode : Bool := true
deriving DecidableEq

def STATE_DELAY : ℕ := 3000
def IDLE_DELAY : ℕ := 20000

/-- State touched by `handleAnimationSequence`: the sequence struct, the
`randomizeEmotes` pool, the globals `currentEmotes`/`emoteCount`, and a
trace of the filenames handed to `playGIF` (in call order). -/
structure AnimState where
  seq : AnimationSequence := {}
  pool : EmotePool := {}
  currentEmotes : List String := []
  emoteCount : ℕ := 0
  played : List String := []
deriving DecidableEq

/-- The state after `initializeAnimationModule` at boot: sequence at
`REST_START` with `stateStartTime = 0` and `isIdleMode = true`; the
static emote pool is in its pristine (never used) state. -/
def initialAnimState : AnimState := {}

/-- `handleAnimationSequence` (`animation_module.cpp` lines 412-450).
`r` is the random-oracle value consumed if this tick calls
`randomizeEmotes`. -/
def handleAnimationSequence (currentTime : ℕ) (r : ℕ) (s : AnimState) :
    AnimState :=
  match s.seq.currentState with
  | .REST_START =>
    { s with played := s.played ++ [WINK_EMOTE],
             seq := { s.seq with stateStartTime := currentTime,
                                 currentState := .ANIMATION_CYCLE } }
  | .ANIMATION_CYCLE =>
    if STATE_DELAY ≤ currentTime - s.seq.stateStartTime then
      let emotes := if s.seq.isIdleMode then restingEmotes else randomEmotes
      let count := emotes.length
      let step := randomizeEmotes count r s.pool
      let playedNew := match step.2 with
        | some i => s.played ++ [emotes.getD i ""]
        | none => s.played
      let idleNew := !s.seq.isIdleMode
      let s1 := { s with pool := step.1, currentEmotes := emotes,
                         emoteCount := count, played := playedNew,
                         seq := { s.seq with isIdleMode := idleNew } }
      if idleNew then
        { s1 with seq := { s1.seq with currentState := .REST_END,
                                       stateStartTime := currentTime } }
      else s1
    else s
  | .REST_END =>
    let s1 := { s with played := s.played ++ [BLINK_EMOTE] }
    if IDLE_DELAY ≤ currentTime - s1.seq.stateStartTime then
      { s1 with seq := { s1.seq with currentState := .REST_START,
                                     stateStartTime := currentTime } }
    else s1

/-!
## Playback loop primitive (`playGIF`, `animation_module.cpp` lines 109-182)

The loop is modelled against per-iteration oracles: iteration `n` sees
the result of `playGIFFrame` (`frameContinue n`), the `millis()` reading
taken in that iteration (`timeMs n`), and the values of the externally
polled predicates after the `ADXLDataPolling()` call of that iteration.
The frame pacing (`micros`/`delayMicroseconds`) has no observable
effect here and is dropped.
-/

def TIMEOUT_MS : ℕ := 10000
def INTERACTION_CHECK_DEBOUNCE : ℕ := 10

/-- How the `playGIF` loop was left: natural completion or one of the
`break` sites, in source order. -/
inductive GifExit
  | frameDone
  | menuAbort
  | updateAbort
  | espnowAbort
  | doubleTapAbort
  | tapAbort
  | shakeAbort
  | accelAbort
  | orientationAbort
  | timeoutAbort
deriving DecidableEq

/-- Oracles for one `playGIF` call. -/
structure GifEnv where
  loadOk : Bool := true
  filename : String := ""
  frameContinue : ℕ → Bool := fun _ => false
  menuActive : ℕ → Bool := fun _ => false
  updateMode : ℕ → Bool := fun _ => false
  espToggled : ℕ → Bool := fun _ => false
  doubleTapped : ℕ → Bool := fun _ => false
  tapped : ℕ → Bool := fun _ => false
  shaking : ℕ → Bool := fun _ => false
  suddenAccel : ℕ → Bool := fun _ => false
  tiltedLeft : ℕ → Bool := fun _ => false
  tiltedRight : ℕ → Bool := fun _ => false
  upsideDown : ℕ → Bool := fun _ => false
  timeMs : ℕ → ℕ := fun _ => 0
  startTime : ℕ := 0

/-- The body of the debounced interaction-check block: the abort checks
in source order (menu, update mode, ESP-NOW toggle, the `motionInteracted`
sub-checks, then the orientation check with its filename allow-list). -/
def gifPollAbort (env : GifEnv) (n : ℕ) : Option GifExit :=
  if env.menuActive n then some .menuAbort
  else if env.updateMode n then some .updateAbort
  else if env.espToggled n then some .espnowAbort
  else
    let inter : Option GifExit :=
      if env.shaking n || env.tapped n || env.doubleTapped n ||
          env.suddenAccel n then
        if env.doubleTapped n then some .doubleTapAbort
        else if env.tapped n then some .tapAbort
        else if env.shaking n then some .shakeAbort
        else if env.suddenAccel n then some .accelAbort
        else none
      else none
    match inter with
    | some e => some e
    | none =>
      if (env.tiltedLeft n || env.tiltedRight n || env.upsideDown n) ∧
          env.filename ≠ CRASH01_EMOTE ∧ env.filename ≠ CRASH02_EMOTE ∧
          env.filename ≠ SHOCK_EMOTE then
        some .orientationAbort
      else none

/-- The `while (playGIFFrame(...))` loop, fuelled.  Arguments after the
fuel: `lastCheck` and the iteration index `n`.  Returns the exit reason
and the iteration at which the loop was left, or `none` if the fuel ran
out while the loop was still running. -/
def playGIFLoop (env : GifEnv) : ℕ → ℕ → ℕ → Option (GifExit × ℕ)
  | 0, _, _ => none
  | fuel + 1, lastCheck, n =>
    if env.frameContinue n = false then some (.frameDone, n)
    else
      let currentTime := env.timeMs n
      let poll := INTERACTION_CHECK_DEBOUNCE ≤ currentTime - lastCheck
      let ab := if poll then gifPollAbort env n else none
      match ab with
      | some e => some (e, n)
      | none =>
        let lastCheck1 := if poll then currentTime else lastCheck
        if TIMEOUT_MS < currentTime - env.startTime then
          some (.timeoutAbort, n)
        else playGIFLoop env fuel lastCheck1 (n + 1)

/-- Result of one `playGIF` call.  `releases` counts the invocations of
`stopGifPlayback` made by `playGIF` itself (the single call after the
loop); `loadGIF` performs its own internal cleanup on its
allocation-failure path, which is not counted here. -/
structure GifResult where
  returned : Bool
  releases : ℕ
  exitInfo : Option (GifExit × ℕ)
deriving DecidableEq

/-- `playGIF` (`animation_module.cpp` lines 109-182): on load failure,
log and return `false` before any playback; otherwise run the loop
(started with `lastCheck = 0`), then release playback resources exactly
once and return `true`.  `none` means the given fuel did not cover the
loop's actual length. -/
def playGIF (env : GifEnv) (fuel : ℕ) : Option GifResult :=
  if env.loadOk = false then some ⟨false, 0, none⟩
  else
    match playGIFLoop env fuel 0 0 with
    | none => none
    | some e => some ⟨true, 1, some e⟩

/-- The batch average of the Y axis used by `detectOrientation`. -/
def avgOrientY (env : TickEnv) (s : MotionState) : ℚ :=
  sumField SensorEvent.y env.events s.cursor env.samplesAvailable /
    (env.samplesAvailable : ℚ)

/-- The batch average of the Z axis used by `detectOrientation`. -/
def avgOrientZ (env : TickEnv) (s : MotionState) : ℚ :=
  sumField SensorEvent.z env.events s.cursor env.samplesAvailable /
    (env.samplesAvailable : ℚ)

/-- Number of orientation flags that are set. -/
def orientationFlagCount (f : MotionFlags) : ℕ :=
  f.upsideDown.toNat + f.tiltedLeft.toNat + f.tiltedRight.toNat +
    f.halfTiltedLeft.toNat + f.halfTiltedRight.toNat

/-- The C2 tick environment exhibiting a stale TAPPED flag: interrupt
pin high, `INT_SOURCE` reporting a double tap (0x20), `ACT_TAP_STATUS`
reporting the X axis (0x04), one quiet sample available. -/
def C2env : TickEnv :=
  { sensorEnabled := true, samplesAvailable := 1, pinD1High := true,
    intSource := 0x20, tapStatus := 0x04,
    events := fun _ => ⟨0, 0, 0, 0⟩, now := 1000 }

/-- The C2 prior state: TAPPED is still set from an earlier tick. -/
def C2state : MotionState := { flags := { tapped := true } }

/-- A sequence of `detectInactivity` calls (one per tick), in order. -/
def runDetectInactivity (s : MotionState) : List TickEnv → MotionState
  | [] => s
  | e :: es => runDetectInactivity (detectInactivity e s).1 es

/-- C4 counterexample tick 1: quiet batch (magnitude 1/2) at t = 1000ms. -/
def C4envA : TickEnv :=
  { samplesAvailable := 1, now := 1000, events := fun _ => ⟨0, 0, 0, 1 / 2⟩ }

/-- C4 counterexample tick 2: quiet batch (magnitude 1/2) at t = 91000ms,
i.e. 90 seconds after tick 1. -/
def C4envB : TickEnv :=
  { samplesAvailable := 1, now := 91000, events := fun _ => ⟨0, 0, 0, 1 / 2⟩ }

/-- C7 counterexample tick: 30 seconds of no activity (quiet batch at
t = 30000ms, all timers fresh). -/
def C7env : TickEnv :=
  { samplesAvailable := 1, now := 30000, events := fun _ => ⟨0, 0, 0, 0⟩ }

/-- The emote pool right after a refill: `unplayedEmotes[i] = i` (as a
`uint8_t`) for `i < count`, with `remainingCount = count`. -/
def poolFull (count : ℕ) : EmotePool :=
  { unplayed := (List.range count).map (· % 256), arraySize := count,
    remainingCount := count }

/-- The emote pool after a single `randomizeEmotes` call (count 2,
random oracle 0) from the pristine state: a reachable mid-cycle pool. -/
def C6pool1 : EmotePool := (randomizeEmotesRun 2 {} [0]).1

/-!
## Flag-preservation lemmas

Which detector leaves which flag untouched; used to push facts through
one whole classification tick.
-/

theorem detectShakes_tapped (env : TickEnv) (s : MotionState) :
    (detectShakes env s).flags.tapped = s.flags.tapped := by
  unfold detectShakes; dsimp only; (repeat' split) <;> rfl

theorem detectShakes_doubleTapped (env : TickEnv) (s : MotionState) :
    (detectShakes env s).flags.doubleTapped = s.flags.doubleTapped := by
  unfold detectShakes; dsimp only; (repeat' split) <;> rfl

theorem detectInactivity_tapped (env : TickEnv) (s : MotionState) :
    ((detectInactivity env s).1).flags.tapped = s.flags.tapped := by
  unfold detectInactivity; dsimp only; (repeat' split) <;> rfl

theorem detectInactivity_doubleTapped (env : TickEnv) (s : MotionState) :
    ((detectInactivity env s).1).flags.doubleTapped = s.flags.doubleTapped := by
  unfold detectInactivity; dsimp only; (repeat' split) <;> rfl

theorem detectInactivity_shaking (env : TickEnv) (s : MotionState) :
    ((detectInactivity env s).1).flags.shaking = s.flags.shaking := by
  unfold detectInactivity; dsimp only; (repeat' split) <;> rfl

theorem detectSuddenAcceleration_tapped (env : TickEnv) (s : MotionState) :
    ((detectSuddenAcceleration env s).1).flags.tapped = s.flags.tapped := by
  unfold detectSuddenAcceleration; dsimp only; (repeat' split) <;> rfl

theorem detectSuddenAcceleration_doubleTapped (env : TickEnv)
    (s : MotionState) :
    ((detectSuddenAcceleration env s).1).flags.doubleTapped =
      s.flags.doubleTapped := by
  unfold detectSuddenAcceleration; dsimp only; (repeat' split) <;> rfl

theorem detectSuddenAcceleration_shaking (env : TickEnv) (s : MotionState) :
    ((detectSuddenAcceleration env s).1).flags.shaking = s.flags.shaking := by
  unfold detectSuddenAcceleration; dsimp only; (repeat' split) <;> rfl

theorem detectOrientation_tapped (env : TickEnv) (s : MotionState) :
    (detectOrientation env s).flags.tapped = s.flags.tapped := by
  unfold detectOrientation; dsimp only; (repeat' split) <;> rfl

theorem detectOrientation_doubleTapped (env : TickEnv) (s : MotionState) :
    (detectOrientation env s).flags.doubleTapped = s.flags.doubleTapped := by
  unfold detectOrientation; dsimp only; (repeat' split) <;> rfl

theorem detectOrientation_shaking (env : TickEnv) (s : MotionState) :
    (detectOrientation env s).flags.shaking = s.flags.shaking := by
  unfold detectOrientation; dsimp only; (repeat' split) <;> rfl

theorem monitorSleep_tapped (env : TickEnv) (s : MotionState) :
    (monitorSleep env s).flags.tapped = s.flags.tapped := by
  unfold monitorSleep handleDeepSleep
  dsimp only; (repeat' split) <;> simp [detectInactivity_tapped]

theorem monitorSleep_doubleTapped (env : TickEnv) (s : MotionState) :
    (monitorSleep env s).flags.doubleTapped = s.flags.doubleTapped := by
  unfold monitorSleep handleDeepSleep
  dsimp only; (repeat' split) <;> simp [detectInactivity_doubleTapped]

theorem monitorSleep_shaking (env : TickEnv) (s : MotionState) :
    (monitorSleep env s).flags.shaking = s.flags.shaking := by
  unfold monitorSleep handleDeepSleep
  dsimp only; (repeat' split) <;> simp [detectInactivity_shaking]

theorem autoDimDisplay_tapped (env : TickEnv) (s : MotionState) :
    (autoDimDisplay env s).flags.tapped = s.flags.tapped := by
  unfold autoDimDisplay; dsimp only; (repeat' split) <;> rfl

theorem autoDimDisplay_doubleTapped (env : TickEnv) (s : MotionState) :
    (autoDimDisplay env s).flags.doubleTapped = s.flags.doubleTapped := by
  unfold autoDimDisplay; dsimp only; (repeat' split) <;> rfl

theorem autoDimDisplay_shaking (env : TickEnv) (s : MotionState) :
    (autoDimDisplay env s).flags.shaking = s.flags.shaking := by
  unfold autoDimDisplay; dsimp only; (repeat' split) <;> rfl

/-- C5: calling the classifier tick with an empty sample batch is a
no-op: for every motion state and environment with
`samplesAvailable = 0`, `ADXLDataPolling` returns the state unchanged
(flags, inactivity timer and all other classifier-persistent state). -/
theorem C5_empty_batch_no_op (env : TickEnv) (s : MotionState)
    (h : env.samplesAvailable = 0) : ADXLDataPolling env s = s := by
  unfold ADXLDataPolling; dsimp only; (repeat' split) <;> simp_all

/-- Witness for C5 at a concrete input. -/
theorem C5_empty_batch_no_op_witness :
    ADXLDataPolling { samplesAvailable := 0, now := 12345 }
      { flags := { tapped := true }, inactivityTime := 77 } =
      { flags := { tapped := true }, inactivityTime := 77 } :=
  C5_empty_batch_no_op _ _ rfl

/-- C3: after `detectOrientation` on a non-empty batch, at most one of
the five orientation flags is set, and the chosen flag follows the
ordered threshold checks of the source: average Z at most the flip
threshold (-8) gives UPSIDE_DOWN; otherwise average Y at least the tilt
threshold (9) gives TILTED_RIGHT; otherwise average Y at most -9 gives
TILTED_LEFT; otherwise the signed half-tilt band (threshold 4.2 = 21/5)
gives HALF_TILTED_RIGHT / HALF_TILTED_LEFT; inside the dead zone no
flag is set. -/
theorem C3_orientation_flags (env : TickEnv) (s : MotionState)
    (hn : env.samplesAvailable ≠ 0) :
    orientationFlagCount (detectOrientation env s).flags ≤ 1 ∧
    ((detectOrientation env s).flags.upsideDown = true ↔
      avgOrientZ env s ≤ FLIP_THRESHOLD) ∧
    ((detectOrientation env s).flags.tiltedRight = true ↔
      (¬ avgOrientZ env s ≤ FLIP_THRESHOLD ∧
        TILT_THRESHOLD ≤ avgOrientY env s)) ∧
    ((detectOrientation env s).flags.tiltedLeft = true ↔
      (¬ avgOrientZ env s ≤ FLIP_THRESHOLD ∧
        ¬ TILT_THRESHOLD ≤ avgOrientY env s ∧
        avgOrientY env s ≤ -TILT_THRESHOLD)) ∧
    ((detectOrientation env s).flags.halfTiltedRight = true ↔
      (¬ avgOrientZ env s ≤ FLIP_THRESHOLD ∧
        ¬ TILT_THRESHOLD ≤ avgOrientY env s ∧
        ¬ avgOrientY env s ≤ -TILT_THRESHOLD ∧
        HALF_TILT_THRESHOLD ≤ avgOrientY env s)) ∧
    ((detectOrientation env s).flags.halfTiltedLeft = true ↔
      (¬ avgOrientZ env s ≤ FLIP_THRESHOLD ∧
        ¬ TILT_THRESHOLD ≤ avgOrientY env s ∧
        ¬ avgOrientY env s ≤ -TILT_THRESHOLD ∧
        ¬ HALF_TILT_THRESHOLD ≤ avgOrientY env s ∧
        avgOrientY env s ≤ -HALF_TILT_THRESHOLD)) := by
  unfold detectOrientation avgOrientY avgOrientZ orientationFlagCount
    FLIP_THRESHOLD TILT_THRESHOLD HALF_TILT_THRESHOLD
  rw [if_neg hn]
  dsimp only
  repeat' split
  all_goals
    refine ⟨by simp, ?_, ?_, ?_, ?_, ?_⟩ <;> simp_all

/-- Witness for C3: a batch with average Y = 10, average Z = 2 yields
TILTED_RIGHT and nothing else (the scenario of the spec). -/
theorem C3_orientation_flags_witness :
    orientationFlagCount
      (detectOrientation
        { samplesAvailable := 1, events := fun _ => ⟨0, 10, 2, 0⟩ }
        {}).flags ≤ 1 ∧
    (detectOrientation
        { samplesAvailable := 1, events := fun _ => ⟨0, 10, 2, 0⟩ }
        {}).flags.tiltedRight = true := by
  obtain ⟨h1, -, h3, -⟩ :=
    C3_orientation_flags
      { samplesAvailable := 1, events := fun _ => ⟨0, 10, 2, 0⟩ } {}
      (by decide)
  refine ⟨h1, h3.mpr ⟨?_, ?_⟩⟩ <;>
    norm_num [avgOrientZ, avgOrientY, sumField, FLIP_THRESHOLD,
      TILT_THRESHOLD]

/-- C1: in a classification tick whose batch average combined magnitude
reaches the shake threshold (8.0), where neither TAPPED nor
DOUBLE_TAPPED is pending and the last tap observation
(`tapLockoutTime`) lies at least the 500ms lockout in the past, the
tick sets SHAKING (it is set by `detectShakes` and survives the rest of
the pipeline). -/
theorem C1_shake_sets_flag (env : TickEnv) (s : MotionState)
    (hen : env.sensorEnabled = true)
    (hn : env.samplesAvailable ≠ 0)
    (ht : s.flags.tapped = false) (hd : s.flags.doubleTapped = false)
    (hlock : TAP_LOCKOUT_PERIOD ≤ env.now - s.tapLockoutTime)
    (havg : SHAKE_THRESHOLD ≤ batchAvgMag env s.cursor env.samplesAvailable) :
    (ADXLDataPolling env s).flags.shaking = true := by
  have hshake : (detectShakes env s).flags.shaking = true := by
    unfold detectShakes
    rw [if_neg (by simp [ht, hd]), if_neg (Nat.not_lt.mpr hlock)]
    dsimp only
    rw [if_pos havg]
  unfold ADXLDataPolling
  rw [if_neg (by simp [hen]), if_neg hn]
  dsimp only
  rw [autoDimDisplay_shaking, monitorSleep_shaking, detectOrientation_shaking,
      detectSuddenAcceleration_shaking]
  rw [if_neg (by simp [hshake])]
  exact hshake

/-- Witness for C1: a two-sample batch of magnitude 9 each, no pending
taps, lockout expired. -/
theorem C1_shake_sets_flag_witness :
    (ADXLDataPolling
      { sensorEnabled := true, samplesAvailable := 2, now := 600,
        events := fun _ => ⟨0, 0, 0, 9⟩ } {}).flags.shaking = true :=
  C1_shake_sets_flag _ _ rfl (by decide) rfl rfl (by decide)
    (by norm_num [batchAvgMag, sumField, SHAKE_THRESHOLD])

/-- `detectTapping` sets at most one of TAPPED / DOUBLE_TAPPED: starting
with both clear, they are never both set after one call. -/
theorem detectTapping_not_both (env : TickEnv) (s : MotionState)
    (ht : s.flags.tapped = false) (hd : s.flags.doubleTapped = false) :
    ¬((detectTapping env s).flags.tapped = true ∧
      (detectTapping env s).flags.doubleTapped = true) := by
  unfold detectTapping
  dsimp only
  (repeat' split) <;> simp [ht, hd]

/-- C2 (amended): if neither TAPPED nor DOUBLE_TAPPED was set before the
tick, then after one call to `ADXLDataPolling` they are not both true —
`detectTapping` sets at most one of the two flags per tick and no other
detector sets them.  (As frozen, over *every* prior flag state, the
claim is false: the tick never clears a stale flag, see the
counterexample.) -/
theorem C2_tap_flags_not_both (env : TickEnv) (s : MotionState)
    (ht : s.flags.tapped = false) (hd : s.flags.doubleTapped = false) :
    ¬((ADXLDataPolling env s).flags.tapped = true ∧
      (ADXLDataPolling env s).flags.doubleTapped = true) := by
  unfold ADXLDataPolling
  dsimp only
  split
  · simp [ht, hd]
  · split
    · simp [ht, hd]
    · rw [autoDimDisplay_tapped, monitorSleep_tapped, detectOrientation_tapped,
          detectSuddenAcceleration_tapped, autoDimDisplay_doubleTapped,
          monitorSleep_doubleTapped, detectOrientation_doubleTapped,
          detectSuddenAcceleration_doubleTapped]
      split
      · rw [detectInactivity_tapped, detectInactivity_doubleTapped]
        exact detectTapping_not_both env _
          (by rw [detectShakes_tapped]; exact ht)
          (by rw [detectShakes_doubleTapped]; exact hd)
      · rw [detectShakes_tapped, detectShakes_doubleTapped]
        simp [ht, hd]

/-- Witness for the amended C2 at a concrete input. -/
theorem C2_tap_flags_not_both_witness :
    ¬((ADXLDataPolling { samplesAvailable := 1 } {}).flags.tapped = true ∧
      (ADXLDataPolling { samplesAvailable := 1 } {}).flags.doubleTapped
        = true) :=
  C2_tap_flags_not_both _ _ rfl rfl

/-- Counterexample to C2 as frozen: with TAPPED already set from an
earlier tick and the registers reporting a fresh double tap, one
classification tick leaves both TAPPED and DOUBLE_TAPPED true
simultaneously (nothing in the tick clears the stale flag). -/
theorem C2_both_tapped_counterexample :
    (ADXLDataPolling C2env C2state).flags.tapped = true ∧
    (ADXLDataPolling C2env C2state).flags.doubleTapped = true := by
  norm_num [ADXLDataPolling, detectShakes, detectTapping, detectInactivity,
    detectSuddenAcceleration, detectOrientation, monitorSleep,
    autoDimDisplay, handleDeepSleep, batchAvgMag, sumField, C2env, C2state,
    SHAKE_THRESHOLD, INACTIVITY_THRESHOLD, TILT_THRESHOLD,
    HALF_TILT_THRESHOLD, FLIP_THRESHOLD, TAP_LOCKOUT_PERIOD,
    ACCEL_LOCKOUT_PERIOD, INACTIVITY_TIMEOUT, DISPLAY_TIMEOUT, IDLE_TIMEOUT,
    ENTER_DEEP_SLEEP_TIMER, timeToMillis, ADXL345_INT_SOURCE_DOUBLETAP,
    ADXL345_INT_SOURCE_SINGLETAP, ADXL345_TAP_SOURCE_X, ADXL345_TAP_SOURCE_Y,
    ADXL345_TAP_SOURCE_Z]

/-- One `detectInactivity` step keeps DEEP_SLEEP clear and keeps the
inactivity timer inside the observed window, as long as the tick's
clock stays within `D < INACTIVITY_TIMEOUT` of `t0`. -/
theorem detectInactivity_step_inv (e : TickEnv) (s : MotionState)
    (t0 D : ℕ) (hD : D < INACTIVITY_TIMEOUT)
    (hit : s.inactivityTime = 0 ∨ t0 ≤ s.inactivityTime)
    (hds : s.flags.deepSleep = false)
    (he : t0 ≤ e.now ∧ e.now ≤ t0 + D) :
    (detectInactivity e s).1.flags.deepSleep = false ∧
    ((detectInactivity e s).1.inactivityTime = 0 ∨
      t0 ≤ (detectInactivity e s).1.inactivityTime) := by
  unfold detectInactivity
  dsimp only
  repeat' split
  · exact ⟨hds, hit⟩
  · exact ⟨hds, Or.inr he.1⟩
  · exfalso
    rcases hit with h0 | hle <;> omega
  · exact ⟨hds, hit⟩
  · exact ⟨rfl, Or.inl rfl⟩

/-- Over any trace of ticks whose clocks all lie within a window shorter
than `INACTIVITY_TIMEOUT`, a fresh inactivity timer never reaches
DEEP_SLEEP. -/
theorem runDetectInactivity_bounded (trace : List TickEnv) :
    ∀ (s : MotionState) (t0 D : ℕ), D < INACTIVITY_TIMEOUT →
    (s.inactivityTime = 0 ∨ t0 ≤ s.inactivityTime) →
    s.flags.deepSleep = false →
    (∀ e ∈ trace, t0 ≤ e.now ∧ e.now ≤ t0 + D) →
    (runDetectInactivity s trace).flags.deepSleep = false := by
  induction trace with
  | nil => intro s t0 D _ _ hds _; exact hds
  | cons e es ih =>
    intro s t0 D hD hit hds htr
    have he := htr e (List.mem_cons_self e es)
    have hstep := detectInactivity_step_inv e s t0 D hD hit hds he
    simp only [runDetectInactivity]
    exact ih _ t0 D hD hstep.2 hstep.1
      (fun x hx => htr x (List.mem_cons_of_mem e hx))

/-- `detectInactivity` on an active batch resets the timer and clears
DEEP_SLEEP. -/
theorem detectInactivity_reset (env : TickEnv) (s : MotionState)
    (hn : env.samplesAvailable ≠ 0)
    (havg : INACTIVITY_THRESHOLD ≤ batchAvgMag env s.cursor
      env.samplesAvailable) :
    (detectInactivity env s).1.inactivityTime = 0 ∧
    (detectInactivity env s).1.flags.deepSleep = false := by
  unfold detectInactivity
  rw [if_neg hn]
  dsimp only
  rw [if_neg (not_lt.mpr havg)]
  exact ⟨rfl, rfl⟩

/-- C4 (amended): `detectInactivity` sets DEEP_SLEEP only after the
average magnitude has stayed below the 1.5 threshold continuously for
`INACTIVITY_TIMEOUT` — which is `timeToMillis(1, 30)` = 90 *minutes*
(5400000 ms), not 90 seconds — and any single tick at or above the
threshold resets the inactivity timer to zero and clears the flag.
First conjunct: starting from a fresh timer with the flag clear, no
trace of ticks confined to a window shorter than 90 minutes ever sets
DEEP_SLEEP.  Second conjunct: the reset behaviour of an active tick. -/
theorem C4_inactivity_timeout :
    INACTIVITY_TIMEOUT = 5400000 ∧
    (∀ (s : MotionState) (t0 D : ℕ) (trace : List TickEnv),
      D < INACTIVITY_TIMEOUT → s.inactivityTime = 0 →
      s.flags.deepSleep = false →
      (∀ e ∈ trace, t0 ≤ e.now ∧ e.now ≤ t0 + D) →
      (runDetectInactivity s trace).flags.deepSleep = false) ∧
    (∀ (env : TickEnv) (s : MotionState), env.samplesAvailable ≠ 0 →
      INACTIVITY_THRESHOLD ≤ batchAvgMag env s.cursor env.samplesAvailable →
      (detectInactivity env s).1.inactivityTime = 0 ∧
      (detectInactivity env s).1.flags.deepSleep = false) := by
  refine ⟨by norm_num [INACTIVITY_TIMEOUT, timeToMillis], ?_, ?_⟩
  · intro s t0 D trace hD h0 hds htr
    exact runDetectInactivity_bounded trace s t0 D hD (Or.inl h0) hds htr
  · intro env s hn havg
    exact detectInactivity_reset env s hn havg

/-- Witness for the amended C4: a single quiet tick inside the window
leaves DEEP_SLEEP clear, and an active tick (magnitude 5) resets the
timer and clears the flag. -/
theorem C4_inactivity_timeout_witness :
    (runDetectInactivity {} [C4envA]).flags.deepSleep = false ∧
    ((detectInactivity
        { samplesAvailable := 1, events := fun _ => ⟨0, 0, 0, 5⟩ }
        {}).1.inactivityTime = 0 ∧
      (detectInactivity
        { samplesAvailable := 1, events := fun _ => ⟨0, 0, 0, 5⟩ }
        {}).1.flags.deepSleep = false) := by
  have h := C4_inactivity_timeout
  refine ⟨h.2.1 {} 1000 0 [C4envA] (by norm_num [INACTIVITY_TIMEOUT,
    timeToMillis]) rfl rfl ?_, h.2.2 _ {} (by decide) ?_⟩
  · intro e hx
    simp only [List.mem_singleton] at hx
    subst hx
    exact ⟨le_refl _, by norm_num [C4envA]⟩
  · norm_num [batchAvgMag, sumField, INACTIVITY_THRESHOLD]

/-- Counterexample to C4 as frozen: 90 seconds of sustained quiet (two
ticks averaging magnitude 1/2, 90000 ms apart, starting from a fresh
timer) do *not* set DEEP_SLEEP, because the code's timeout is
`timeToMillis(1, 30)` = 90 minutes, not 90 seconds. -/
theorem C4_90s_counterexample :
    batchAvgMag C4envA 0 1 < INACTIVITY_THRESHOLD ∧
    batchAvgMag C4envB 1 1 < INACTIVITY_THRESHOLD ∧
    C4envB.now - C4envA.now = 90000 ∧
    (runDetectInactivity {} [C4envA, C4envB]).flags.deepSleep = false := by
  refine ⟨by norm_num [batchAvgMag, sumField, C4envA, INACTIVITY_THRESHOLD],
    by norm_num [batchAvgMag, sumField, C4envB, INACTIVITY_THRESHOLD],
    by norm_num [C4envA, C4envB], ?_⟩
  exact runDetectInactivity_bounded [C4envA, C4envB] {} 1000 90000
    (by norm_num [INACTIVITY_TIMEOUT, timeToMillis]) (Or.inl rfl) rfl
    (by intro e he
        simp only [List.mem_cons, List.mem_singleton] at he
        rcases he with rfl | rfl | h
        · exact ⟨le_refl _, by norm_num [C4envA]⟩
        · exact ⟨by norm_num [C4envB], by norm_num [C4envB]⟩
        · cases h)

/-- C7 (amended): in `autoDimDisplay` the display timeout
`DISPLAY_TIMEOUT` is `timeToMillis(0, 30)` = 30 *minutes* (1800000 ms),
not 30 seconds, and dimming additionally requires the 60-minute idle
timeout (`IDLE_TIMEOUT` over `IDLE_TIME`) to have elapsed; when both
timeouts have elapsed with the SLEEP flag clear, brightness is lowered
and SLEEP is set.  Any tick with average magnitude strictly above the
inactivity threshold restores full brightness and clears SLEEP, subject
to the 200ms debounce on `DISPLAY_TIME`. -/
theorem C7_auto_dim :
    DISPLAY_TIMEOUT = 1800000 ∧ IDLE_TIMEOUT = 3600000 ∧
    (∀ (env : TickEnv) (s : MotionState), env.samplesAvailable ≠ 0 →
      INACTIVITY_THRESHOLD <
        batchAvgMag env s.cursor env.samplesAvailable →
      200 ≤ env.now - s.displayTime →
      (autoDimDisplay env s).brightness = DISPLAY_BRIGHTNESS_FULL ∧
      (autoDimDisplay env s).flags.sleep = false ∧
      (autoDimDisplay env s).displayTime = env.now) ∧
    (∀ (env : TickEnv) (s : MotionState), env.samplesAvailable ≠ 0 →
      batchAvgMag env s.cursor env.samplesAvailable ≤
        INACTIVITY_THRESHOLD →
      DISPLAY_TIMEOUT ≤ env.now - s.displayTime →
      s.flags.sleep = false →
      IDLE_TIMEOUT ≤ env.now - s.idleTime →
      (autoDimDisplay env s).brightness = DISPLAY_BRIGHTNESS_LOW ∧
      (autoDimDisplay env s).flags.sleep = true ∧
      (autoDimDisplay env s).idleTime = env.now) := by
  refine ⟨by norm_num [DISPLAY_TIMEOUT, timeToMillis],
    by norm_num [IDLE_TIMEOUT, timeToMillis], ?_, ?_⟩
  · intro env s hn havg hdeb
    unfold autoDimDisplay
    rw [if_neg hn]
    dsimp only
    rw [if_pos ⟨havg, hdeb⟩]
    exact ⟨rfl, rfl, rfl⟩
  · intro env s hn havg hdt hsleep hidle
    unfold autoDimDisplay
    rw [if_neg hn]
    dsimp only
    rw [if_neg (fun hc => absurd hc.1 (not_lt.mpr havg)), if_pos hdt,
      if_pos ⟨hsleep, hidle⟩]
    exact ⟨rfl, rfl, rfl⟩

/-- Witness for the amended C7: an active tick at t = 200ms restores
full brightness; a quiet tick at t = 3600000ms (both timeouts elapsed,
SLEEP clear) dims to low brightness and sets SLEEP. -/
theorem C7_auto_dim_witness :
    ((autoDimDisplay
        { samplesAvailable := 1, now := 200,
          events := fun _ => ⟨0, 0, 0, 2⟩ } {}).brightness =
      DISPLAY_BRIGHTNESS_FULL ∧
     (autoDimDisplay
        { samplesAvailable := 1, now := 200,
          events := fun _ => ⟨0, 0, 0, 2⟩ } {}).flags.sleep = false) ∧
    ((autoDimDisplay
        { samplesAvailable := 1, now := 3600000,
          events := fun _ => ⟨0, 0, 0, 0⟩ } {}).brightness =
      DISPLAY_BRIGHTNESS_LOW ∧
     (autoDimDisplay
        { samplesAvailable := 1, now := 3600000,
          events := fun _ => ⟨0, 0, 0, 0⟩ } {}).flags.sleep = true) := by
  have h := C7_auto_dim
  obtain ⟨hw2, hw3, -⟩ := h.2.2.1
    { samplesAvailable := 1, now := 200, events := fun _ => ⟨0, 0, 0, 2⟩ }
    {} (by decide)
    (by norm_num [batchAvgMag, sumField, INACTIVITY_THRESHOLD]) (by decide)
  obtain ⟨hd1, hd2, -⟩ := h.2.2.2
    { samplesAvailable := 1, now := 3600000,
      events := fun _ => ⟨0, 0, 0, 0⟩ }
    {} (by decide)
    (by norm_num [batchAvgMag, sumField, INACTIVITY_THRESHOLD])
    (by norm_num [DISPLAY_TIMEOUT, timeToMillis]) rfl
    (by norm_num [IDLE_TIMEOUT, timeToMillis])
  exact ⟨⟨hw2, hw3⟩, hd1, hd2⟩

/-- Counterexample to C7 as frozen: after 30 *seconds* without activity
(quiet tick at t = 30000ms, SLEEP clear, fresh timers) the display is
*not* dimmed and SLEEP stays clear — `DISPLAY_TIMEOUT` is
`timeToMillis(0, 30)` = 30 minutes, not 30 seconds. -/
theorem C7_30s_counterexample :
    DISPLAY_TIMEOUT = 1800000 ∧
    30000 ≤ C7env.now - ({} : MotionState).displayTime ∧
    ({} : MotionState).flags.sleep = false ∧
    (autoDimDisplay C7env {}).flags.sleep = false ∧
    (autoDimDisplay C7env {}).brightness = DISPLAY_BRIGHTNESS_FULL := by
  refine ⟨by norm_num [DISPLAY_TIMEOUT, timeToMillis], by decide, rfl,
    ?_, ?_⟩ <;>
    norm_num [autoDimDisplay, batchAvgMag, sumField, C7env,
      INACTIVITY_THRESHOLD, DISPLAY_TIMEOUT, timeToMillis,
      DISPLAY_BRIGHTNESS_FULL]

/-- Swap-and-shrink step of the pool: picking position `pos` out of the
first `k` live entries, overwriting it with entry `k - 1` and dropping
the last live slot is, up to permutation, removing the picked element
from the live prefix. -/
theorem swap_pick_perm (pos : ℕ) :
    ∀ (l : List ℕ) (k : ℕ), k ≤ l.length → pos < k →
    List.Perm (l.getD pos 0 :: (l.set pos (l.getD (k - 1) 0)).take (k - 1))
      (l.take k) := by
  induction pos with
  | zero =>
    intro l k hk hpos
    cases l with
    | nil => simp at hk; omega
    | cons a t =>
      obtain ⟨j, rfl⟩ : ∃ j, k = j + 1 := ⟨k - 1, by omega⟩
      cases j with
      | zero => simp
      | succ i =>
        simp only [List.getD_cons_zero, List.getD_cons_succ,
          Nat.add_sub_cancel, List.set_cons_zero, List.take_succ_cons]
        refine List.Perm.cons a ?_
        have hi : i < t.length := by simp at hk; omega
        rw [List.take_succ, List.getElem?_eq_getElem hi,
          List.getD_eq_getElem t 0 hi]
        exact (List.perm_append_singleton _ _).symm
  | succ p ih =>
    intro l k hk hpos
    cases l with
    | nil => simp at hk; omega
    | cons a t =>
      obtain ⟨j, rfl⟩ : ∃ j, k = j + 1 := ⟨k - 1, by omega⟩
      obtain ⟨i, rfl⟩ : ∃ i, j = i + 1 := ⟨j - 1, by omega⟩
      simp only [List.getD_cons_succ, List.set_cons_succ,
        Nat.add_sub_cancel, List.take_succ_cons]
      have ht : i + 1 ≤ t.length := by simp at hk; omega
      have hih := ih t (i + 1) ht (by omega)
      simp only [Nat.add_sub_cancel] at hih
      exact (List.Perm.swap a (t.getD p 0) _).trans (hih.cons a)

/-- Draining a partially used pool: with `remainingCount` live entries
and one random pick per call, `remainingCount` consecutive calls return
exactly the live prefix, as a permutation. -/
theorem randomizeEmotesRun_drain :
    ∀ (rs : List ℕ) (s : EmotePool) (count : ℕ), count ≠ 0 →
      s.arraySize = count → rs.length = s.remainingCount →
      s.remainingCount ≤ s.unplayed.length →
      List.Perm (randomizeEmotesRun count s rs).2
        (s.unplayed.take s.remainingCount) := by
  intro rs
  induction rs with
  | nil =>
    intro s count hc hsz hlen hle
    have h0 : s.remainingCount = 0 := by simpa using hlen.symm
    simp [randomizeEmotesRun, h0]
  | cons r rest ih =>
    intro s count hc hsz hlen hle
    have hrc : s.remainingCount = rest.length + 1 := by simpa using hlen.symm
    have hstep : randomizeEmotes count r s =
        ({ unplayed := s.unplayed.set (r % s.remainingCount)
             (s.unplayed.getD (s.remainingCount - 1) 0),
           arraySize := s.arraySize,
           remainingCount := s.remainingCount - 1 },
         some (s.unplayed.getD (r % s.remainingCount) 0)) := by
      unfold randomizeEmotes
      rw [if_neg hc]
      dsimp only
      rw [if_neg (not_not_intro hsz), if_neg (by omega)]
    simp only [randomizeEmotesRun, hstep, Option.toList_some,
      List.singleton_append]
    have hmod : r % s.remainingCount < s.remainingCount :=
      Nat.mod_lt _ (by omega)
    have hih := ih
      { unplayed := s.unplayed.set (r % s.remainingCount)
          (s.unplayed.getD (s.remainingCount - 1) 0),
        arraySize := s.arraySize,
        remainingCount := s.remainingCount - 1 }
      count hc hsz (by simp; omega) (by simp; omega)
    refine List.Perm.trans ?_ (swap_pick_perm (r % s.remainingCount)
      s.unplayed s.remainingCount hle hmod)
    exact hih.cons _

/-- A `randomizeEmotes` call from an aligned state (pool exhausted or
pool size just changed) behaves exactly like a call on the
freshly-refilled pool. -/
theorem randomizeEmotes_refill (count r : ℕ) (s : EmotePool)
    (hc : count ≠ 0)
    (halign : s.remainingCount = 0 ∨ s.arraySize ≠ count) :
    randomizeEmotes count r s = randomizeEmotes count r (poolFull count) := by
  unfold randomizeEmotes
  rw [if_neg hc, if_neg hc]
  dsimp only
  rw [if_neg (show ¬((poolFull count).arraySize ≠ count) from
    not_not_intro rfl)]
  rw [if_neg (show ¬((poolFull count).remainingCount = 0) from hc)]
  by_cases h : s.arraySize = count
  · have h0 : s.remainingCount = 0 := by
      rcases halign with h0 | hne
      · exact h0
      · exact absurd h hne
    rw [if_neg (not_not_intro h), if_pos h0]
    simp [poolFull, h]
  · rw [if_pos h]
    dsimp only
    rw [if_pos rfl]
    simp [poolFull]

/-- C6 (amended): for every pool size N with 0 < N ≤ 256, across N
consecutive `randomizeEmotes` calls with the same emote array and count
N **starting from an aligned state** (the unplayed pool exhausted, or
the pool size just changed — e.g. the first N calls with this count),
the N selected indices are a permutation of 0..N-1: every index is
selected exactly once before any repeats.  (From an arbitrary mid-cycle
start the frozen claim fails, see the counterexample; N ≤ 256 is needed
because the pool stores indices in `uint8_t` cells.) -/
theorem C6_sampling_without_replacement (count : ℕ) (hc : 0 < count)
    (h256 : count ≤ 256) (s : EmotePool)
    (halign : s.remainingCount = 0 ∨ s.arraySize ≠ count)
    (rs : List ℕ) (hlen : rs.length = count) :
    List.Perm (randomizeEmotesRun count s rs).2 (List.range count) := by
  cases rs with
  | nil => simp at hlen; omega
  | cons r rest =>
    have hfirst : randomizeEmotesRun count s (r :: rest) =
        randomizeEmotesRun count (poolFull count) (r :: rest) := by
      simp only [randomizeEmotesRun,
        randomizeEmotes_refill count r s (by omega) halign]
    rw [hfirst]
    have hdrain := randomizeEmotesRun_drain (r :: rest) (poolFull count)
      count (by omega) rfl (by simpa [poolFull] using hlen)
      (by simp [poolFull])
    have hmap : (List.range count).map (· % 256) = List.range count := by
      rw [show (List.range count).map (· % 256) =
          (List.range count).map (fun i => i) from
        List.map_congr_left (fun i hi =>
          Nat.mod_eq_of_lt (lt_of_lt_of_le (List.mem_range.mp hi) h256))]
      exact List.map_id _
    have htake : (poolFull count).unplayed.take
        (poolFull count).remainingCount = List.range count := by
      show ((List.range count).map (· % 256)).take count = _
      rw [hmap]
      exact List.take_of_length_le (le_of_eq (List.length_range count))
    exact htake ▸ hdrain

/-- Witness for the amended C6: two calls with count 2 from the pristine
pool select each index exactly once. -/
theorem C6_sampling_without_replacement_witness :
    List.Perm (randomizeEmotesRun 2 {} [0, 0]).2 (List.range 2) :=
  C6_sampling_without_replacement 2 (by decide) (by decide) {}
    (Or.inl rfl) [0, 0] rfl

/-- Counterexample to C6 as frozen: from the reachable mid-cycle pool
`C6pool1` (count 2, one index already consumed), the next 2 consecutive
calls — a window of N = 2 consecutive calls with the same array and
count, and no intervening count change — select index 1 twice while
index 0 is never selected in the window. -/
theorem C6_window_counterexample :
    (randomizeEmotesRun 2 C6pool1 [0, 1]).2 = [1, 1] ∧
    ¬ (randomizeEmotesRun 2 C6pool1 [0, 1]).2.Nodup ∧
    0 ∉ (randomizeEmotesRun 2 C6pool1 [0, 1]).2 := by
  decide

/-- `randomizeEmotes` with count 5 from the pristine pool: reallocate,
refill with 0..4, pick position `r % 5`, swap index 4 into the hole. -/
theorem randomizeEmotes5 (r : ℕ) :
    randomizeEmotes 5 r ({} : EmotePool) =
      ({ unplayed := ([0, 1, 2, 3, 4] : List ℕ).set (r % 5) 4,
         arraySize := 5, remainingCount := 4 }, some (r % 5)) := by
  have h5 : r % 5 < 5 := Nat.mod_lt _ (by decide)
  unfold randomizeEmotes
  norm_num
  generalize hq : r % 5 = q at h5 ⊢
  interval_cases q <;> decide

/-- C9 (amended): from the initial AnimationSequence state (REST_START,
isIdleMode true), one tick of `handleAnimationSequence` plays the wink
animation, moves `currentState` to ANIMATION_CYCLE and records
`stateStartTime` as that tick's clock; once the 3000ms dwell has
elapsed, the next tick dequeues an emote from the **resting** pool (the
pool selected while `isIdleMode` is still true) and flips the mode to
active. -/
theorem C9_rest_start_sequence (t1 t2 r1 r2 : ℕ)
    (hd : STATE_DELAY ≤ t2 - t1) :
    (handleAnimationSequence t1 r1 initialAnimState).seq.currentState =
      SequenceState.ANIMATION_CYCLE ∧
    (handleAnimationSequence t1 r1 initialAnimState).seq.stateStartTime =
      t1 ∧
    (handleAnimationSequence t1 r1 initialAnimState).played =
      [WINK_EMOTE] ∧
    (handleAnimationSequence t2 r2
        (handleAnimationSequence t1 r1 initialAnimState)).currentEmotes =
      restingEmotes ∧
    (handleAnimationSequence t2 r2
        (handleAnimationSequence t1 r1 initialAnimState)).seq.isIdleMode =
      false ∧
    ∃ i, i < restingEmotes.length ∧
      (handleAnimationSequence t2 r2
          (handleAnimationSequence t1 r1 initialAnimState)).played =
        [WINK_EMOTE, restingEmotes.getD i ""] := by
  have hs1 : handleAnimationSequence t1 r1 initialAnimState =
      { seq := { currentState := .ANIMATION_CYCLE, stateStartTime := t1,
                 isIdleMode := true },
        pool := {}, currentEmotes := [], emoteCount := 0,
        played := [WINK_EMOTE] } := rfl
  rw [hs1]
  refine ⟨rfl, rfl, rfl, ?_⟩
  unfold handleAnimationSequence
  dsimp only
  rw [if_pos hd]
  rw [show (!true) = false from rfl]
  rw [if_neg Bool.false_ne_true]
  rw [show (if true = true then restingEmotes else randomEmotes) =
    restingEmotes from rfl]
  rw [show restingEmotes.length = 5 from rfl, randomizeEmotes5 r2]
  exact ⟨rfl, rfl, r2 % 5, Nat.mod_lt _ (by decide), rfl⟩

/-- Witness for the amended C9 at a concrete clock pair. -/
theorem C9_rest_start_sequence_witness :
    (handleAnimationSequence 1000 0 initialAnimState).seq.currentState =
      SequenceState.ANIMATION_CYCLE ∧
    (handleAnimationSequence 1000 0 initialAnimState).seq.stateStartTime =
      1000 ∧
    (handleAnimationSequence 1000 0 initialAnimState).played =
      [WINK_EMOTE] ∧
    (handleAnimationSequence 4000 0
        (handleAnimationSequence 1000 0 initialAnimState)).currentEmotes =
      restingEmotes ∧
    (handleAnimationSequence 4000 0
        (handleAnimationSequence 1000 0 initialAnimState)).seq.isIdleMode =
      false ∧
    ∃ i, i < restingEmotes.length ∧
      (handleAnimationSequence 4000 0
          (handleAnimationSequence 1000 0 initialAnimState)).played =
        [WINK_EMOTE, restingEmotes.getD i ""] :=
  C9_rest_start_sequence 1000 4000 0 0 (by decide)

/-- Counterexample to C9 as frozen: the spec's own vocabulary
(§4.3) calls `randomEmotes` the active pool and `restingEmotes` the
resting pool; on the post-dwell tick the code selects the pool for
`isIdleMode = true`, which is `restingEmotes`, not the active pool —
the two pools are different arrays (5 versus 15 entries). -/
theorem C9_active_pool_counterexample :
    (handleAnimationSequence 4000 0
        (handleAnimationSequence 1000 0 initialAnimState)).currentEmotes =
      restingEmotes ∧
    restingEmotes ≠ randomEmotes ∧
    (handleAnimationSequence 4000 0
        (handleAnimationSequence 1000 0 initialAnimState)).emoteCount = 5 ∧
    randomEmotes.length = 15 := by
  decide

/-- C10: `playGIF` returns `false` exactly when loading the asset
fails; whenever the load succeeds and the loop terminates — by natural
completion or by *any* abort, including the 10s timeout — it returns
`true` with the playback-resource release performed exactly once, so
the boolean result does not distinguish a completed playback from an
interrupted one. -/
theorem C10_playGIF_result (env : GifEnv) (fuel : ℕ) :
    (env.loadOk = false → playGIF env fuel = some ⟨false, 0, none⟩) ∧
    (∀ r : GifResult, playGIF env fuel = some r → env.loadOk = true →
      r.returned = true ∧ r.releases = 1) := by
  constructor
  · intro h
    unfold playGIF
    rw [if_pos h]
  · intro r hr hl
    unfold playGIF at hr
    rw [if_neg (by simp [hl])] at hr
    rcases hloop : playGIFLoop env fuel 0 0 with _ | e
    · rw [hloop] at hr
      simp at hr
    · rw [hloop] at hr
      simp only [Option.some.injEq] at hr
      rw [← hr]
      exact ⟨rfl, rfl⟩

/-- Witness for C10: a failing load returns `false` with no release; a
successful load whose first frame already reports completion returns
`true` with one release. -/
theorem C10_playGIF_result_witness :
    playGIF { loadOk := false } 1 = some ⟨false, 0, none⟩ ∧
    (GifResult.mk true 1 (some (.frameDone, 0))).returned = true ∧
    (GifResult.mk true 1 (some (.frameDone, 0))).releases = 1 := by
  refine ⟨(C10_playGIF_result { loadOk := false } 1).1 rfl, ?_, ?_⟩
  · exact ((C10_playGIF_result {} 1).2 ⟨true, 1, some (.frameDone, 0)⟩
      rfl rfl).1
  · exact ((C10_playGIF_result {} 1).2 ⟨true, 1, some (.frameDone, 0)⟩
      rfl rfl).2

/-- C8: for an asset whose frame-advance never finishes and with no
abort condition ever raised, `playGIF` terminates through the 10-second
wall-clock timeout: it exits at the *first* iteration whose clock
exceeds `startTime + TIMEOUT_MS`, returns `true`, and the playback
resources are released exactly once (as they are on every exit path
after a successful load, by `playGIF`'s single release site after the
loop). -/
theorem C8_stuck_asset_timeout (env : GifEnv) (fuel k : ℕ)
    (hload : env.loadOk = true)
    (hframe : ∀ n, env.frameContinue n = true)
    (hmenu : ∀ n, env.menuActive n = false)
    (hupd : ∀ n, env.updateMode n = false)
    (hesp : ∀ n, env.espToggled n = false)
    (hdt : ∀ n, env.doubleTapped n = false)
    (htp : ∀ n, env.tapped n = false)
    (hsh : ∀ n, env.shaking n = false)
    (hsa : ∀ n, env.suddenAccel n = false)
    (htl : ∀ n, env.tiltedLeft n = false)
    (htr : ∀ n, env.tiltedRight n = false)
    (hud : ∀ n, env.upsideDown n = false)
    (hk : TIMEOUT_MS < env.timeMs k - env.startTime)
    (hfuel : k < fuel) :
    ∃ n ≤ k, playGIF env fuel =
        some ⟨true, 1, some (GifExit.timeoutAbort, n)⟩ ∧
      TIMEOUT_MS < env.timeMs n - env.startTime ∧
      ∀ m < n, env.timeMs m - env.startTime ≤ TIMEOUT_MS := by
  have habort : ∀ n, gifPollAbort env n = none := by
    intro n
    unfold gifPollAbort
    simp [hmenu n, hupd n, hesp n, hdt n, htp n, hsh n, hsa n, htl n,
      htr n, hud n]
  have hP : ∃ n, TIMEOUT_MS < env.timeMs n - env.startTime := ⟨k, hk⟩
  set N := Nat.find hP with hNdef
  have hN : TIMEOUT_MS < env.timeMs N - env.startTime := Nat.find_spec hP
  have hmin : ∀ m, m < N → ¬ TIMEOUT_MS < env.timeMs m - env.startTime :=
    fun m hm => Nat.find_min hP hm
  have hNk : N ≤ k := Nat.find_min' hP hk
  have hloop : ∀ (f j lc : ℕ), j ≤ N → N < j + f →
      playGIFLoop env f lc j = some (GifExit.timeoutAbort, N) := by
    intro f
    induction f with
    | zero => intro j lc hj hjf; omega
    | succ f ihf =>
      intro j lc hj hjf
      unfold playGIFLoop
      rw [if_neg (by simp [hframe j])]
      dsimp only
      rw [show (if INTERACTION_CHECK_DEBOUNCE ≤ env.timeMs j - lc then
          gifPollAbort env j else none) = none from by
        rw [habort j]; exact ite_self none]
      dsimp only
      rcases eq_or_lt_of_le hj with rfl | hlt
      · rw [if_pos hN]
      · rw [if_neg (hmin j hlt)]
        exact ihf (j + 1) _ (by omega) (by omega)
  refine ⟨N, hNk, ?_, hN, fun m hm => Nat.not_lt.mp (hmin m hm)⟩
  unfold playGIF
  rw [if_neg (by simp [hload]), hloop fuel 0 0 (Nat.zero_le N) (by omega)]

/-- Witness for C8: a stuck asset whose clock advances 6 seconds per
iteration times out at iteration 2 (12s) with one release. -/
theorem C8_stuck_asset_timeout_witness :
    ∃ n ≤ 2, playGIF
        { loadOk := true, frameContinue := fun _ => true,
          timeMs := fun n => n * 6000, startTime := 0 } 3 =
        some ⟨true, 1, some (GifExit.timeoutAbort, n)⟩ ∧
      TIMEOUT_MS <
        (fun n => n * 6000) n - 0 ∧
      ∀ m < n, (fun n => n * 6000) m - 0 ≤ TIMEOUT_MS := by
  apply C8_stuck_asset_timeout
    { loadOk := true, frameContinue := fun _ => true,
      timeMs := fun n => n * 6000, startTime := 0 } 3 2 <;>
    first
      | exact fun _ => rfl
      | norm_num [TIMEOUT_MS]

end ByteSprout
